import Mathlib

/-! Shallow embedding of `src/webgl/program.js` (the luma.gl `Program` resource):
buffer-to-attribute binding (`setBuffers` together with the private
`_sortBuffersByLocation` and `_checkBuffers`, and `unsetBuffers`), the
uniform/texture-unit logic of `setUniforms`, the unified `draw` dispatch,
`getParameter`, and the default-uniform resolution inside `initialize`.

JS objects used as string-keyed maps are embedded as association lists in
insertion order (the iteration order of a JS object with string keys).  The
GPU state the program mutates is embedded explicitly: a per-slot record
(enabled flag, buffer bound as the slot's data source, instancing divisor)
plus the `ELEMENT_ARRAY_BUFFER` binding point. -/

namespace LumaGL

/-! ### GL enum constants (numeric values of the WebGL enums used by program.js) -/

def ELEMENT_ARRAY_BUFFER : Nat := 0x8893
def ARRAY_BUFFER : Nat := 0x8892
def TRIANGLES : Nat := 4
def UNSIGNED_SHORT : Nat := 0x1403
def LINK_STATUS : Nat := 0x8B82
def ACTIVE_UNIFORMS : Nat := 0x8B86
def ACTIVE_ATTRIBUTES : Nat := 0x8B89
def TRANSFORM_FEEDBACK_BUFFER_MODE : Nat := 0x8C7F
def TRANSFORM_FEEDBACK_VARYINGS : Nat := 0x8C83
def ACTIVE_UNIFORM_BLOCKS : Nat := 0x8A36
def SEPARATE_ATTRIBS : Nat := 0x8C8D

/-! ### Buffers

A `Buffer` (src/webgl/buffer.js, an external collaborator of program.js)
exposes a binding `target` and a `layout` descriptor with an `instanced`
flag (a number used both for truthiness and for `> 0`) and an index element
`type`.  `Buffer.makeFrom` is modelled from the spec: when handed something
that is already a `Buffer` it returns it unchanged, so buffer-map values are
embedded directly as `Buffer` records. -/

structure BufferLayout where
  instanced : Nat
  type : Nat
deriving DecidableEq

structure Buffer where
  target : Nat
  layout : BufferLayout
deriving DecidableEq

/-! ### GPU state touched by the program

Per-slot vertex-attribute-array state plus the element-array-buffer binding. -/

structure SlotState where
  enabled : Bool
  boundBuffer : Option Buffer
  divisor : Nat
deriving DecidableEq

structure GLState where
  slots : Nat → SlotState
  elementBinding : Option Buffer

/-- Modelled from the spec: AttributeBinder primitive `enable(gl, location)`
(src/webgl/vertex-attributes.js, not included under src/), a pure
pass-through that enables the vertex attribute array at `location`. -/
def VertexAttributes.enable (g : GLState) (location : Nat) : GLState :=
  { g with slots := fun i => if i = location then { g.slots i with enabled := true } else g.slots i }

/-- Modelled from the spec: AttributeBinder primitive `disable(gl, location)`,
a pure pass-through that disables the vertex attribute array at `location`. -/
def VertexAttributes.disable (g : GLState) (location : Nat) : GLState :=
  { g with slots := fun i => if i = location then { g.slots i with enabled := false } else g.slots i }

/-- Modelled from the spec: AttributeBinder primitive
`setBuffer({gl, location, buffer})`, binding `buffer` as the data source of
slot `location`. -/
def VertexAttributes.setBuffer (g : GLState) (location : Nat) (buffer : Buffer) : GLState :=
  { g with slots := fun i => if i = location then { g.slots i with boundBuffer := some buffer } else g.slots i }

/-- Modelled from the spec: AttributeBinder primitive
`setDivisor(gl, location, divisor)`, setting the instancing divisor of slot
`location`. -/
def VertexAttributes.setDivisor (g : GLState) (location : Nat) (divisor : Nat) : GLState :=
  { g with slots := fun i => if i = location then { g.slots i with divisor := divisor } else g.slots i }

/-- `gl.bindBuffer(GL.ELEMENT_ARRAY_BUFFER, b)` / `buffer.bind()` on an
element-array buffer: sets the element-array-buffer binding point. -/
def bindElementBuffer (g : GLState) (b : Option Buffer) : GLState :=
  { g with elementBinding := b }

/-! ### Program introspection data and mutable program state -/

/-- The immutable introspection result of a linked program:
`_attributeLocations` as an ordered name-to-location list (iteration order of
the JS object built by `_getAttributeLocations`).  `_attributeCount` is the
`ACTIVE_ATTRIBUTES` count, which is the number of introspected attributes. -/
structure Prog where
  attributes : List (String × Nat)

def Prog.attributeCount (p : Prog) : Nat := p.attributes.length

/-- `this._attributeLocations[name]` (`undefined` becomes `none`). -/
def Prog.attributeLocations (p : Prog) (name : String) : Option Nat :=
  p.attributes.lookup name

/-- The mutable per-program state used by `setBuffers` / `unsetBuffers`:
`_filledLocations` (names mapped to `true`, in insertion order), `_warn`
(names already warned about, in insertion order), and the GPU state. -/
structure ProgState where
  filledLocations : List String
  warn : List String
  gls : GLState

/-- The `drawParams` object `setBuffers` fills in. -/
structure DrawParams where
  isInstanced : Bool
  isIndexed : Bool
  indexType : Option Nat
deriving DecidableEq

/-- The two `throw new Error` sites of `_sortBuffersByLocation`:
`duplicate GL.ELEMENT_ARRAY_BUFFER` and
`has both location and type gl.ELEMENT_ARRAY_BUFFER`. -/
inductive SortError where
  | duplicateElements (bufferName : String)
  | hasBothLocationAndElements (bufferName : String) (location : Nat)
deriving DecidableEq

/-- The local state of the `_sortBuffersByLocation` scan: the
slot-indexed `locations` array, the `elements` name, and `this._warn`. -/
structure SortAcc where
  locations : List (Option String)
  elements : Option String
  warn : List String
deriving DecidableEq

/-- One iteration of the `for (const bufferName in buffers)` loop of
`_sortBuffersByLocation` (program.js lines 339-359). -/
def sortStep (p : Prog) (acc : SortAcc) (entry : String × Buffer) : Except SortError SortAcc :=
  match p.attributeLocations entry.1 with
  | none =>
    if entry.2.target = ELEMENT_ARRAY_BUFFER ∧ acc.elements ≠ none then
      Except.error (SortError.duplicateElements entry.1)
    else if entry.2.target = ELEMENT_ARRAY_BUFFER then
      Except.ok { acc with elements := some entry.1 }
    else if entry.1 ∉ acc.warn then
      Except.ok { acc with warn := acc.warn ++ [entry.1] }
    else
      Except.ok acc
  | some location =>
    if entry.2.target = ELEMENT_ARRAY_BUFFER then
      Except.error (SortError.hasBothLocationAndElements entry.1 location)
    else
      Except.ok { acc with locations := acc.locations.set location (some entry.1) }

/-- The whole scan.  A thrown error aborts the loop; mutations of
`this._warn` made by earlier iterations persist, which is why the
accumulator reached so far is returned alongside the error. -/
def sortBuffersRun (p : Prog) : List (String × Buffer) → SortAcc → SortAcc × Option SortError
  | [], acc => (acc, none)
  | entry :: rest, acc =>
    match sortStep p acc entry with
    | Except.error e => (acc, some e)
    | Except.ok acc' => sortBuffersRun p rest acc'

/-- `_sortBuffersByLocation(buffers)`: starts from
`locations = new Array(this._attributeCount)` and `elements = null`. -/
def sortBuffersByLocation (p : Prog) (warn : List String)
    (buffers : List (String × Buffer)) : SortAcc × Option SortError :=
  sortBuffersRun p buffers
    { locations := List.replicate p.attributeCount none, elements := none, warn := warn }

/-- Result of the per-location binding loop of `setBuffers`. -/
structure BindResult where
  gls : GLState
  filled : List String
  drawParams : DrawParams

/-- The `for (let location = 0; location < locations.length; ++location)`
loop of `setBuffers` (program.js lines 140-154): disable slots with no
buffer; for slots with a buffer enable, bind, set the divisor, overwrite
`drawParams.isInstanced`, and mark the name filled. -/
def processLocations (buffers : List (String × Buffer)) :
    List (Option String) → Nat → GLState → List String → DrawParams → BindResult
  | [], _, g, filled, dp => { gls := g, filled := filled, drawParams := dp }
  | slotName :: rest, location, g, filled, dp =>
    match slotName with
    | none =>
      processLocations buffers rest (location + 1)
        (VertexAttributes.disable g location) filled dp
    | some bufferName =>
      match buffers.lookup bufferName with
      | none =>
        processLocations buffers rest (location + 1)
          (VertexAttributes.disable g location) filled dp
      | some buffer =>
        let divisor := if buffer.layout.instanced ≠ 0 then 1 else 0
        let g1 := VertexAttributes.setDivisor
          (VertexAttributes.setBuffer (VertexAttributes.enable g location) location buffer)
          location divisor
        processLocations buffers rest (location + 1) g1 (filled ++ [bufferName])
          { dp with isInstanced := decide (0 < buffer.layout.instanced) }

/-- `_checkBuffers()` (program.js lines 321-333): warn once per attribute
name that is neither filled nor already warned. -/
def checkBuffersRun : List (String × Nat) → List String → List String → List String
  | [], _, warn => warn
  | (attributeName, _) :: rest, filled, warn =>
    if attributeName ∉ filled ∧ attributeName ∉ warn then
      checkBuffersRun rest filled (warn ++ [attributeName])
    else
      checkBuffersRun rest filled warn

/-- Result of a `setBuffers` call: the program state afterwards, the
`drawParams` object as left by the call, and the thrown error if any. -/
structure SetBuffersResult where
  state : ProgState
  drawParams : DrawParams
  err : Option SortError

/-- The success path of `setBuffers` (program.js lines 140-166), after
`_sortBuffersByLocation` returned without throwing: run the per-location
binding loop, bind the elements buffer if one was found (setting
`isIndexed`/`indexType`), then run `_checkBuffers` when `check`. -/
def setBuffersBody (p : Prog) (gls0 : GLState) (filled0 : List String)
    (buffers : List (String × Buffer)) (locations : List (Option String))
    (elements : Option String) (warn : List String) (check : Bool) : SetBuffersResult :=
  let r := processLocations buffers locations 0 gls0 filled0
    { isInstanced := false, isIndexed := false, indexType := none }
  let withElements :=
    match elements with
    | none => (r.gls, r.drawParams)
    | some elementsName =>
      match buffers.lookup elementsName with
      | none => (r.gls, r.drawParams)
      | some buffer =>
        (bindElementBuffer r.gls (some buffer),
         { r.drawParams with isIndexed := true, indexType := some buffer.layout.type })
  let warn1 := if check then checkBuffersRun p.attributes r.filled warn else warn
  { state := { filledLocations := r.filled, warn := warn1, gls := withElements.1 },
    drawParams := withElements.2, err := none }

/-- `setBuffers(buffers, {clear, check, drawParams})` (program.js lines
120-169).  `clear` resets `_filledLocations` and the `drawParams` fields are
reset before `_sortBuffersByLocation` runs, so both effects survive an error
thrown by the sort. -/
def setBuffers (p : Prog) (st : ProgState) (buffers : List (String × Buffer))
    (clear : Bool) (check : Bool) : SetBuffersResult :=
  let filled0 := if clear then [] else st.filledLocations
  match sortBuffersByLocation p st.warn buffers with
  | (acc, some e) =>
    { state := { filledLocations := filled0, warn := acc.warn, gls := st.gls },
      drawParams := { isInstanced := false, isIndexed := false, indexType := none },
      err := some e }
  | (acc, none) =>
    setBuffersBody p st.gls filled0 buffers acc.locations acc.elements acc.warn check

/-- `unsetBuffers()` (program.js lines 175-183): disable slots
`1 .. _attributeCount - 1` (the `setDivisor` call is commented out in the
source) and bind the element-array-buffer target to null. -/
def unsetBuffers (p : Prog) (st : ProgState) : ProgState :=
  let g1 := (List.range' 1 (p.attributeCount - 1)).foldl VertexAttributes.disable st.gls
  { st with gls := bindElementBuffer g1 none }

/-! ### draw -/

/-- The native calls `draw` can issue, in the order of their arguments in
the source. -/
inductive GLCall where
  | useProgram
  | drawElementsInstancedANGLE (drawMode vertexCount indexType offset instanceCount : Nat)
  | drawArraysInstancedANGLE (drawMode offset vertexCount instanceCount : Nat)
  | drawElements (drawMode vertexCount indexType offset : Nat)
  | drawArrays (drawMode offset vertexCount : Nat)
deriving DecidableEq

def GLCall.isDrawCall : GLCall → Bool
  | GLCall.useProgram => false
  | _ => true

/-- `draw(gl, {...})` (program.js lines 81-108): `this.use()` first, then
exactly one of the four native draw variants. -/
def draw (drawMode vertexCount offset : Nat) (isIndexed : Bool) (indexType : Nat)
    (isInstanced : Bool) (instanceCount : Nat) : List GLCall :=
  [GLCall.useProgram] ++
  (if isInstanced && isIndexed then
    [GLCall.drawElementsInstancedANGLE drawMode vertexCount indexType offset instanceCount]
  else if isInstanced then
    [GLCall.drawArraysInstancedANGLE drawMode offset vertexCount instanceCount]
  else if isIndexed then
    [GLCall.drawElements drawMode vertexCount indexType offset]
  else
    [GLCall.drawArrays drawMode offset vertexCount])

/-! ### setUniforms -/

/-- A value supplied in the uniform map: either a `Texture` instance
(identified by an id) or any other value. -/
inductive UniformValue where
  | texture (textureId : Nat)
  | plain (value : Int)
deriving DecidableEq

/-- The state `setUniforms` mutates: each setter's `textureIndex` property
(per uniform name, `undefined` becomes `none`) and the program-wide
`_textureIndexCounter`. -/
structure UniformState where
  textureIndex : String → Option Nat
  textureIndexCounter : Nat

/-- `_createHandle` sets `_textureIndexCounter = 0`; fresh setters carry no
`textureIndex`. -/
def initialUniformState : UniformState :=
  { textureIndex := fun _ => none, textureIndexCounter := 0 }

/-- One iteration of the `for (const uniformName in uniforms)` loop of
`setUniforms` (program.js lines 195-217).  `setters` is the key set of
`_uniformSetters`; names without a setter are skipped. -/
def setUniformsStep (setters : List String) (st : UniformState)
    (entry : String × UniformValue) : UniformState :=
  if entry.1 ∈ setters then
    match entry.2 with
    | UniformValue.texture _ =>
      match st.textureIndex entry.1 with
      | some _ => st
      | none =>
        { textureIndex := fun n =>
            if n = entry.1 then some st.textureIndexCounter else st.textureIndex n,
          textureIndexCounter := st.textureIndexCounter + 1 }
    | UniformValue.plain _ => st
  else st

/-- `setUniforms(uniforms)` as far as texture-unit allocation is concerned. -/
def setUniforms (setters : List String) (st : UniformState)
    (uniforms : List (String × UniformValue)) : UniformState :=
  uniforms.foldl (setUniformsStep setters) st

/-- The allocation invariant of the texture-unit allocator: every assigned
unit is below the counter, and no two sampler uniforms share a unit. -/
def UniformState.wellAllocated (st : UniformState) : Prop :=
  (∀ n i, st.textureIndex n = some i → i < st.textureIndexCounter) ∧
  (∀ m n i, st.textureIndex m = some i → st.textureIndex n = some i → m = n)

/-! ### getParameter -/

/-- `getParameter(pname)` (program.js lines 288-300).  `getProgramParameter`
stands for the native `gl.getProgramParameter(this.handle, pname)` query. -/
def getParameter (isWebGL2 : Bool) (getProgramParameter : Nat → Int) (pname : Nat) : Int :=
  if !isWebGL2 then
    if pname = ACTIVE_UNIFORMS then 0
    else if pname = TRANSFORM_FEEDBACK_BUFFER_MODE then (SEPARATE_ATTRIBS : Int)
    else if pname = TRANSFORM_FEEDBACK_VARYINGS then 0
    else if pname = ACTIVE_UNIFORM_BLOCKS then 0
    else getProgramParameter pname
  else getProgramParameter pname

/-! ### initialize: default-uniform resolution -/

/-- A `defaultUniforms` value: either the built-in
`SHADERS.DEFAULT.defaultUniforms` object or a caller-supplied one. -/
inductive Uniforms where
  | builtinDefaults
  | custom (id : Nat)
deriving DecidableEq

/-- The default-uniform resolution in `initialize` (program.js lines 56-61):
`if (vs === SHADERS.DEFAULT.vs || fs === SHADERS.DEFAULT.fs &&
defaultUniforms === undefined) defaultUniforms = SHADERS.DEFAULT.defaultUniforms`,
with JS precedence (`&&` binds tighter than `||`). -/
def initDefaultUniforms (vsIsDefault fsIsDefault : Bool) (defaultUniforms : Option Uniforms) :
    Option Uniforms :=
  if vsIsDefault = true ∨ (fsIsDefault = true ∧ defaultUniforms = none) then
    some Uniforms.builtinDefaults
  else defaultUniforms

/-! ### Concrete instances used by witnesses and counterexamples -/

def freshSlot : SlotState := { enabled := false, boundBuffer := none, divisor := 0 }

/-- GPU state of a fresh context: every attribute array disabled, no buffer
bound to any slot, every divisor 0, no element-array binding. -/
def freshGLState : GLState := { slots := fun _ => freshSlot, elementBinding := none }

/-- Program state right after `_createHandle`: empty `_filledLocations`,
empty `_warn`, fresh GPU state. -/
def freshProgState : ProgState := { filledLocations := [], warn := [], gls := freshGLState }

def bufferInstanced : Buffer :=
  { target := ARRAY_BUFFER, layout := { instanced := 1, type := UNSIGNED_SHORT } }

def bufferPlain : Buffer :=
  { target := ARRAY_BUFFER, layout := { instanced := 0, type := UNSIGNED_SHORT } }

def bufferElements : Buffer :=
  { target := ELEMENT_ARRAY_BUFFER, layout := { instanced := 0, type := UNSIGNED_SHORT } }

/-- A linked program with an instanced attribute at slot 0 and a plain one
at slot 1. -/
def progMixed : Prog := { attributes := [("instancedAttr", 0), ("plainAttr", 1)] }

/-- A linked program with two attributes. -/
def progAB : Prog := { attributes := [("positions", 0), ("colors", 1)] }

/-- A linked program with three attributes. -/
def progABC : Prog := { attributes := [("positions", 0), ("normals", 1), ("uvs", 2)] }

/-- A buffer map binding an instanced buffer to slot 0 and a non-instanced
one to slot 1. -/
def mixedBuffers : List (String × Buffer) :=
  [("instancedAttr", bufferInstanced), ("plainAttr", bufferPlain)]

/-- A buffer map in which two distinct buffers both declare the
`ELEMENT_ARRAY_BUFFER` target. -/
def twoElementBuffers : List (String × Buffer) :=
  [("indices1", bufferElements), ("indices2", bufferElements)]

/-- A program state whose `_filledLocations` is non-empty before a call. -/
def preFilledState : ProgState :=
  { filledLocations := ["positions"], warn := [], gls := freshGLState }

/-- Entries with no matching attribute location that declare the
element-array-buffer target: the candidates for the `elements` role in
`_sortBuffersByLocation`. -/
def unmatchedElements (p : Prog) (entry : String × Buffer) : Bool :=
  decide (p.attributeLocations entry.1 = none ∧ entry.2.target = ELEMENT_ARRAY_BUFFER)

/-- The spec's index-buffer invariants, stated from the spec's words: the
map violates them exactly when some buffer both matches an attribute name
and declares the element/index-buffer target, or at least two buffers
without a matching attribute declare that target. -/
def violatesIndexInvariants (p : Prog) (buffers : List (String × Buffer)) : Prop :=
  (∃ entry ∈ buffers, (p.attributeLocations entry.1).isSome ∧
      entry.2.target = ELEMENT_ARRAY_BUFFER) ∨
  2 ≤ (buffers.filter (unmatchedElements p)).length

/-- A valid buffer map for `progAB`: one matched attribute buffer, one
unmatched (warned) buffer, one index buffer. -/
def c4Buffers : List (String × Buffer) :=
  [("positions", bufferPlain), ("extraAttr", bufferPlain), ("indices1", bufferElements)]

/-! ## Theorems -/

/-! ### Generic facts about the slot-state primitives -/

theorem disable_slots_eq (g : GLState) (a j : Nat) :
    (VertexAttributes.disable g a).slots j
      = if j = a then { g.slots j with enabled := false } else g.slots j := rfl

theorem foldl_disable_divisor (l : List Nat) :
    ∀ (g : GLState) (j : Nat),
      ((l.foldl VertexAttributes.disable g).slots j).divisor = (g.slots j).divisor := by
  induction l with
  | nil => intro g j; rfl
  | cons a t ih =>
    intro g j
    rw [List.foldl_cons, ih]
    by_cases h : j = a
    · rw [disable_slots_eq, if_pos h]
    · rw [disable_slots_eq, if_neg h]

theorem foldl_disable_not_mem (l : List Nat) :
    ∀ (g : GLState) (j : Nat), j ∉ l →
      (l.foldl VertexAttributes.disable g).slots j = g.slots j := by
  induction l with
  | nil => intro g j _; rfl
  | cons a t ih =>
    intro g j hj
    have hja : ¬ j = a := fun h => hj (by simp [h])
    have hjt : j ∉ t := fun h => hj (List.mem_cons_of_mem a h)
    rw [List.foldl_cons, ih _ _ hjt, disable_slots_eq, if_neg hja]

theorem foldl_disable_enabled_false (l : List Nat) :
    ∀ (g : GLState) (j : Nat), (g.slots j).enabled = false →
      ((l.foldl VertexAttributes.disable g).slots j).enabled = false := by
  induction l with
  | nil => intro g j h; exact h
  | cons a t ih =>
    intro g j h
    rw [List.foldl_cons]
    apply ih
    rw [disable_slots_eq]
    by_cases hja : j = a
    · rw [if_pos hja]
    · rw [if_neg hja]; exact h

theorem foldl_disable_enabled_of_mem (l : List Nat) :
    ∀ (g : GLState) (j : Nat), j ∈ l →
      ((l.foldl VertexAttributes.disable g).slots j).enabled = false := by
  induction l with
  | nil => intro g j h; exact absurd h (List.not_mem_nil j)
  | cons a t ih =>
    intro g j hj
    rw [List.foldl_cons]
    rcases List.mem_cons.mp hj with h | h
    · apply foldl_disable_enabled_false
      rw [disable_slots_eq, if_pos h]
    · exact ih _ _ h

/-! ### Claim theorems: unsetBuffers (C9, C10) -/

/-- Claim C9: for every prior state, `unsetBuffers` disables every attribute
slot with index from 1 through `attributeCount - 1` inclusive, never touches
slot 0, and binds the element-array-buffer target to null. -/
theorem unsetBuffers_disables_slots_and_unbinds (p : Prog) (st : ProgState) (i : Nat)
    (h1 : 1 ≤ i) (h2 : i < p.attributeCount) :
    ((unsetBuffers p st).gls.slots i).enabled = false ∧
    (unsetBuffers p st).gls.slots 0 = st.gls.slots 0 ∧
    (unsetBuffers p st).gls.elementBinding = none := by
  refine ⟨?_, ?_, rfl⟩
  · exact foldl_disable_enabled_of_mem _ st.gls i (by rw [List.mem_range'_1]; omega)
  · exact foldl_disable_not_mem _ st.gls 0 (by rw [List.mem_range'_1]; omega)

/-- Witness for C9 at a concrete three-attribute program. -/
theorem unsetBuffers_disables_slots_and_unbinds_witness :
    ((unsetBuffers progABC freshProgState).gls.slots 1).enabled = false ∧
    (unsetBuffers progABC freshProgState).gls.slots 0 = freshProgState.gls.slots 0 ∧
    (unsetBuffers progABC freshProgState).gls.elementBinding = none :=
  unsetBuffers_disables_slots_and_unbinds progABC freshProgState 1 (by decide) (by decide)

/-- Claim C10: `unsetBuffers` never changes any attribute slot's instancing
divisor (the `setDivisor` call in its loop is commented out in the source),
so divisors set by a prior `setBuffers` persist. -/
theorem unsetBuffers_preserves_divisors (p : Prog) (st : ProgState) (i : Nat) :
    ((unsetBuffers p st).gls.slots i).divisor = (st.gls.slots i).divisor :=
  foldl_disable_divisor (List.range' 1 (p.attributeCount - 1)) st.gls i

/-! ### Claim theorems: draw (C6) -/

/-- Claim C6: `draw` first activates the program and then issues exactly one
native draw call, chosen by the instanced/indexed dispatch table with the
argument order of the source. -/
theorem draw_dispatch (drawMode vertexCount offset indexType instanceCount : Nat)
    (isIndexed isInstanced : Bool) :
    (draw drawMode vertexCount offset isIndexed indexType isInstanced instanceCount).head?
        = some GLCall.useProgram ∧
    ((draw drawMode vertexCount offset isIndexed indexType isInstanced instanceCount).filter
        GLCall.isDrawCall).length = 1 ∧
    (isInstanced = true → isIndexed = true →
      draw drawMode vertexCount offset isIndexed indexType isInstanced instanceCount
        = [GLCall.useProgram,
           GLCall.drawElementsInstancedANGLE drawMode vertexCount indexType offset instanceCount]) ∧
    (isInstanced = true → isIndexed = false →
      draw drawMode vertexCount offset isIndexed indexType isInstanced instanceCount
        = [GLCall.useProgram,
           GLCall.drawArraysInstancedANGLE drawMode offset vertexCount instanceCount]) ∧
    (isInstanced = false → isIndexed = true →
      draw drawMode vertexCount offset isIndexed indexType isInstanced instanceCount
        = [GLCall.useProgram, GLCall.drawElements drawMode vertexCount indexType offset]) ∧
    (isInstanced = false → isIndexed = false →
      draw drawMode vertexCount offset isIndexed indexType isInstanced instanceCount
        = [GLCall.useProgram, GLCall.drawArrays drawMode offset vertexCount]) := by
  cases isInstanced <;> cases isIndexed <;>
    simp [draw, GLCall.isDrawCall, List.filter]

/-- Witness for C6 at the spec's example: instanced, non-indexed,
`vertexCount = 6`, `instanceCount = 100`. -/
theorem draw_dispatch_witness :
    (draw TRIANGLES 6 0 false UNSIGNED_SHORT true 100).head? = some GLCall.useProgram ∧
    draw TRIANGLES 6 0 false UNSIGNED_SHORT true 100
      = [GLCall.useProgram, GLCall.drawArraysInstancedANGLE TRIANGLES 0 6 100] :=
  ⟨(draw_dispatch TRIANGLES 6 0 UNSIGNED_SHORT 100 false true).1,
   (draw_dispatch TRIANGLES 6 0 UNSIGNED_SHORT 100 false true).2.2.2.1 rfl rfl⟩

/-! ### Claim theorems: setBuffers drawParams.isInstanced (C1) -/

/-- Claim C1 (failing input): binding an instanced buffer to slot 0 and a
non-instanced buffer to slot 1 succeeds and fills both names, yet
`drawParams.isInstanced` ends up `false`, because line 151 of program.js
overwrites the flag with the last processed buffer's `instanced` flag
instead of accumulating it. -/
theorem setBuffers_isInstanced_lastWriteWins :
    (setBuffers progMixed freshProgState mixedBuffers true true).err = none ∧
    (setBuffers progMixed freshProgState mixedBuffers true true).state.filledLocations
      = ["instancedAttr", "plainAttr"] ∧
    0 < bufferInstanced.layout.instanced ∧
    (setBuffers progMixed freshProgState mixedBuffers true true).drawParams.isInstanced = false := by
  decide

/-! ### Claim theorems: getParameter (C3) -/

/-- Claim C3 (failing input): under WebGL1 `getParameter` does return the
documented defaults for the transform-feedback / uniform-block parameters
and delegates e.g. `LINK_STATUS`, but it also returns 0 for
`ACTIVE_UNIFORMS` (here the native query would return 7) instead of
delegating the active-uniform count to `gl.getProgramParameter`. -/
theorem getParameter_webgl1_defaults :
    getParameter false (fun _ => 7) ACTIVE_UNIFORMS = 0 ∧
    (0 : Int) ≠ 7 ∧
    getParameter false (fun _ => 7) TRANSFORM_FEEDBACK_BUFFER_MODE = (SEPARATE_ATTRIBS : Int) ∧
    getParameter false (fun _ => 7) TRANSFORM_FEEDBACK_VARYINGS = 0 ∧
    getParameter false (fun _ => 7) ACTIVE_UNIFORM_BLOCKS = 0 ∧
    getParameter false (fun _ => 7) LINK_STATUS = 7 ∧
    getParameter true (fun _ => 7) ACTIVE_UNIFORMS = 7 := by
  decide

/-! ### Claim theorems: setUniforms texture units (C5) -/

theorem setUniformsStep_stable_mono (setters : List String) (st : UniformState)
    (entry : String × UniformValue) (h : st.wellAllocated) :
    (∀ n i, st.textureIndex n = some i →
      (setUniformsStep setters st entry).textureIndex n = some i) ∧
    st.textureIndexCounter ≤ (setUniformsStep setters st entry).textureIndexCounter ∧
    (setUniformsStep setters st entry).wellAllocated := by
  rcases entry with ⟨name, value⟩
  unfold setUniformsStep
  by_cases hmem : name ∈ setters
  · rw [if_pos hmem]
    cases value with
    | plain v => exact ⟨fun n i hi => hi, Nat.le_refl _, h⟩
    | texture t =>
      cases hidx : st.textureIndex name with
      | some j => exact ⟨fun n i hi => hi, Nat.le_refl _, h⟩
      | none =>
        refine ⟨?_, Nat.le_succ _, ?_, ?_⟩
        · intro n i hi
          have hne : ¬ n = name := by
            intro he; rw [he, hidx] at hi; exact Option.noConfusion hi
          show (if n = name then some st.textureIndexCounter else st.textureIndex n) = some i
          rw [if_neg hne]; exact hi
        · intro n i hi
          show i < st.textureIndexCounter + 1
          by_cases hn : n = name
          · have : some st.textureIndexCounter = some i := by
              rw [← hi]; show _ = (if n = name then some st.textureIndexCounter else _)
              rw [if_pos hn]
            have := Option.some.inj this
            omega
          · have hi' : st.textureIndex n = some i := by
              have : (if n = name then some st.textureIndexCounter else st.textureIndex n)
                  = some i := hi
              rwa [if_neg hn] at this
            have := h.1 n i hi'
            omega
        · intro m n i hm hn
          by_cases hm1 : m = name <;> by_cases hn1 : n = name
          · rw [hm1, hn1]
          · have hmv : some st.textureIndexCounter = some i := by
              have : (if m = name then some st.textureIndexCounter else st.textureIndex m)
                  = some i := hm
              rwa [if_pos hm1] at this
            have hnv : st.textureIndex n = some i := by
              have : (if n = name then some st.textureIndexCounter else st.textureIndex n)
                  = some i := hn
              rwa [if_neg hn1] at this
            have h1 := h.1 n i hnv
            have h2 := Option.some.inj hmv
            omega
          · have hnv : some st.textureIndexCounter = some i := by
              have : (if n = name then some st.textureIndexCounter else st.textureIndex n)
                  = some i := hn
              rwa [if_pos hn1] at this
            have hmv : st.textureIndex m = some i := by
              have : (if m = name then some st.textureIndexCounter else st.textureIndex m)
                  = some i := hm
              rwa [if_neg hm1] at this
            have h1 := h.1 m i hmv
            have h2 := Option.some.inj hnv
            omega
          · have hmv : st.textureIndex m = some i := by
              have : (if m = name then some st.textureIndexCounter else st.textureIndex m)
                  = some i := hm
              rwa [if_neg hm1] at this
            have hnv : st.textureIndex n = some i := by
              have : (if n = name then some st.textureIndexCounter else st.textureIndex n)
                  = some i := hn
              rwa [if_neg hn1] at this
            exact h.2 m n i hmv hnv
  · rw [if_neg hmem]
    exact ⟨fun n i hi => hi, Nat.le_refl _, h⟩

/-- Claim C5: over any sequence of `setUniforms` entries, a sampler's
assigned texture unit never changes once set, the program-wide counter only
grows, and the allocation stays injective and below the counter (so a unit
is never reused for another sampler). -/
theorem setUniforms_textureIndex_stable (setters : List String)
    (uniforms : List (String × UniformValue)) :
    ∀ (st : UniformState), st.wellAllocated →
      (∀ n i, st.textureIndex n = some i →
        (setUniforms setters st uniforms).textureIndex n = some i) ∧
      st.textureIndexCounter ≤ (setUniforms setters st uniforms).textureIndexCounter ∧
      (setUniforms setters st uniforms).wellAllocated := by
  induction uniforms with
  | nil => intro st h; exact ⟨fun n i hi => hi, Nat.le_refl _, h⟩
  | cons e rest ih =>
    intro st h
    have hs := setUniformsStep_stable_mono setters st e h
    have hr := ih (setUniformsStep setters st e) hs.2.2
    exact ⟨fun n i hi => hr.1 n i (hs.1 n i hi), Nat.le_trans hs.2.1 hr.2.1, hr.2.2⟩

/-- Witness for C5: the fresh allocator state is well-allocated and stays so
after a call supplying a texture. -/
theorem setUniforms_textureIndex_stable_witness :
    (setUniforms ["uSampler"] initialUniformState
        [("uSampler", UniformValue.texture 5)]).wellAllocated ∧
    initialUniformState.textureIndexCounter ≤
      (setUniforms ["uSampler"] initialUniformState
        [("uSampler", UniformValue.texture 5)]).textureIndexCounter :=
  ⟨(setUniforms_textureIndex_stable ["uSampler"] [("uSampler", UniformValue.texture 5)]
      initialUniformState
      ⟨fun _ _ hi => Option.noConfusion hi, fun _ _ _ hm _ => Option.noConfusion hm⟩).2.2,
   (setUniforms_textureIndex_stable ["uSampler"] [("uSampler", UniformValue.texture 5)]
      initialUniformState
      ⟨fun _ _ hi => Option.noConfusion hi, fun _ _ _ hm _ => Option.noConfusion hm⟩).2.1⟩

/-! ### Claim theorems: initialize default uniforms (C8) -/

/-- Claim C8 (counterexample): with the default vertex shader in use and an
explicit `defaultUniforms` supplied, the explicit value is overwritten by
the built-in defaults, because the `defaultUniforms === undefined` guard
only applies to the fragment-shader branch of the `||`. -/
theorem initDefaultUniforms_overwrites_explicit_counterexample :
    initDefaultUniforms true false (some (Uniforms.custom 7)) = some Uniforms.builtinDefaults ∧
    initDefaultUniforms true false (some (Uniforms.custom 7)) ≠ some (Uniforms.custom 7) := by
  decide

/-- Claim C8 (amended): the built-in defaults replace `defaultUniforms`
exactly when the default vertex shader is in use, or the default fragment
shader is in use and no explicit value was supplied; otherwise the caller's
value (explicit or absent) is kept. -/
theorem initDefaultUniforms_precedence (vsIsDefault fsIsDefault : Bool)
    (u : Option Uniforms) (h : u ≠ some Uniforms.builtinDefaults) :
    (initDefaultUniforms vsIsDefault fsIsDefault u = some Uniforms.builtinDefaults ↔
      (vsIsDefault = true ∨ (fsIsDefault = true ∧ u = none))) ∧
    (¬(vsIsDefault = true ∨ (fsIsDefault = true ∧ u = none)) →
      initDefaultUniforms vsIsDefault fsIsDefault u = u) := by
  unfold initDefaultUniforms
  by_cases hc : vsIsDefault = true ∨ (fsIsDefault = true ∧ u = none)
  · rw [if_pos hc]
    exact ⟨⟨fun _ => hc, fun _ => rfl⟩, fun hn => absurd hc hn⟩
  · rw [if_neg hc]
    exact ⟨⟨fun he => absurd he h, fun hcc => absurd hcc hc⟩, fun _ => rfl⟩

/-- Witness for C8's amended theorem at a concrete input. -/
theorem initDefaultUniforms_precedence_witness :
    initDefaultUniforms true false (some (Uniforms.custom 3)) = some Uniforms.builtinDefaults ↔
      (true = true ∨ (false = true ∧ (some (Uniforms.custom 3) : Option Uniforms) = none)) :=
  (initDefaultUniforms_precedence true false (some (Uniforms.custom 3)) (by decide)).1

/-! ### Claim theorems: setBuffers error path (C2 counterexample) -/

/-- Claim C2 (counterexample): with `_filledLocations = {positions: true}`
before the call, supplying two element-array buffers raises the
duplicate-elements error but leaves `_filledLocations` reset to empty (the
`clear` reset at line 126 runs before `_sortBuffersByLocation` throws), not
as it was before the call. -/
theorem setBuffers_error_clears_filled_counterexample :
    (setBuffers progAB preFilledState twoElementBuffers true true).err
      = some (SortError.duplicateElements "indices2") ∧
    preFilledState.filledLocations = ["positions"] ∧
    (setBuffers progAB preFilledState twoElementBuffers true true).state.filledLocations = [] ∧
    (setBuffers progAB preFilledState twoElementBuffers true true).state.filledLocations
      ≠ preFilledState.filledLocations := by
  decide

/-! ### The `_sortBuffersByLocation` scan: step characterization -/

theorem sortRun_cons_error {p : Prog} {acc : SortAcc} {entry : String × Buffer}
    {rest : List (String × Buffer)} {e : SortError}
    (he : sortStep p acc entry = Except.error e) :
    sortBuffersRun p (entry :: rest) acc = (acc, some e) := by
  simp only [sortBuffersRun, he]

theorem sortRun_cons_ok {p : Prog} {acc acc' : SortAcc} {entry : String × Buffer}
    {rest : List (String × Buffer)}
    (ha : sortStep p acc entry = Except.ok acc') :
    sortBuffersRun p (entry :: rest) acc = sortBuffersRun p rest acc' := by
  simp only [sortBuffersRun, ha]

theorem sortStep_total (p : Prog) (acc : SortAcc) (entry : String × Buffer) :
    (∃ e, sortStep p acc entry = Except.error e) ∨
    (∃ acc', sortStep p acc entry = Except.ok acc') := by
  cases h : sortStep p acc entry with
  | error e => exact Or.inl ⟨e, rfl⟩
  | ok a => exact Or.inr ⟨a, rfl⟩

theorem sortStep_matched_elt {p : Prog} {acc : SortAcc} {entry : String × Buffer} {loc : Nat}
    (hloc : p.attributeLocations entry.1 = some loc)
    (helt : entry.2.target = ELEMENT_ARRAY_BUFFER) :
    sortStep p acc entry
      = Except.error (SortError.hasBothLocationAndElements entry.1 loc) := by
  simp [sortStep, hloc, helt]

theorem sortStep_matched_nonelt {p : Prog} {acc : SortAcc} {entry : String × Buffer} {loc : Nat}
    (hloc : p.attributeLocations entry.1 = some loc)
    (helt : ¬ entry.2.target = ELEMENT_ARRAY_BUFFER) :
    sortStep p acc entry
      = Except.ok { acc with locations := acc.locations.set loc (some entry.1) } := by
  simp [sortStep, hloc, helt]

theorem sortStep_unmatched_elt_dup {p : Prog} {acc : SortAcc} {entry : String × Buffer}
    (hloc : p.attributeLocations entry.1 = none)
    (helt : entry.2.target = ELEMENT_ARRAY_BUFFER) (hels : acc.elements ≠ none) :
    sortStep p acc entry = Except.error (SortError.duplicateElements entry.1) := by
  simp [sortStep, hloc, helt, hels]

theorem sortStep_unmatched_elt_ok {p : Prog} {acc : SortAcc} {entry : String × Buffer}
    (hloc : p.attributeLocations entry.1 = none)
    (helt : entry.2.target = ELEMENT_ARRAY_BUFFER) (hels : acc.elements = none) :
    sortStep p acc entry = Except.ok { acc with elements := some entry.1 } := by
  simp [sortStep, hloc, helt, hels]

theorem sortStep_unmatched_nonelt {p : Prog} {acc : SortAcc} {entry : String × Buffer}
    (hloc : p.attributeLocations entry.1 = none)
    (helt : ¬ entry.2.target = ELEMENT_ARRAY_BUFFER) :
    ∃ w, sortStep p acc entry = Except.ok { acc with warn := w } ∧ acc.warn ⊆ w ∧
      entry.1 ∈ w ∧ (acc.warn.Nodup → w.Nodup) := by
  by_cases hw : entry.1 ∈ acc.warn
  · refine ⟨acc.warn, ?_, fun a ha => ha, hw, fun hh => hh⟩
    simp [sortStep, hloc, helt, hw]
  · refine ⟨acc.warn ++ [entry.1], ?_, fun a ha => List.mem_append_left _ ha,
      List.mem_append_right _ (List.mem_singleton_self _), fun hh => ?_⟩
    · simp [sortStep, hloc, helt, hw]
    · rw [List.nodup_append_comm]
      exact List.nodup_cons.mpr ⟨hw, hh⟩

theorem sortStep_ok_elements {p : Prog} {acc acc' : SortAcc} {entry : String × Buffer}
    (h : sortStep p acc entry = Except.ok acc') :
    acc'.elements = if unmatchedElements p entry then some entry.1 else acc.elements := by
  cases hloc : p.attributeLocations entry.1 with
  | none =>
    by_cases helt : entry.2.target = ELEMENT_ARRAY_BUFFER
    · by_cases hels : acc.elements = none
      · rw [sortStep_unmatched_elt_ok hloc helt hels] at h
        rw [← Except.ok.inj h]
        simp [unmatchedElements, hloc, helt]
      · rw [sortStep_unmatched_elt_dup hloc helt hels] at h
        exact Except.noConfusion h
    · obtain ⟨w, hw, -, -, -⟩ := @sortStep_unmatched_nonelt p acc entry hloc helt
      rw [hw] at h
      rw [← Except.ok.inj h]
      simp [unmatchedElements, hloc, helt]
  | some loc =>
    by_cases helt : entry.2.target = ELEMENT_ARRAY_BUFFER
    · rw [sortStep_matched_elt hloc helt] at h
      exact Except.noConfusion h
    · rw [sortStep_matched_nonelt hloc helt] at h
      rw [← Except.ok.inj h]
      simp [unmatchedElements, hloc, helt]

theorem sortStep_ok_warn {p : Prog} {acc acc' : SortAcc} {entry : String × Buffer}
    (h : sortStep p acc entry = Except.ok acc') :
    acc.warn ⊆ acc'.warn ∧ (acc.warn.Nodup → acc'.warn.Nodup) := by
  cases hloc : p.attributeLocations entry.1 with
  | none =>
    by_cases helt : entry.2.target = ELEMENT_ARRAY_BUFFER
    · by_cases hels : acc.elements = none
      · rw [sortStep_unmatched_elt_ok hloc helt hels] at h
        rw [← Except.ok.inj h]
        exact ⟨fun a ha => ha, fun hh => hh⟩
      · rw [sortStep_unmatched_elt_dup hloc helt hels] at h
        exact Except.noConfusion h
    · obtain ⟨w, hw, hsub, -, hnd⟩ := @sortStep_unmatched_nonelt p acc entry hloc helt
      rw [hw] at h
      rw [← Except.ok.inj h]
      exact ⟨hsub, hnd⟩
  | some loc =>
    by_cases helt : entry.2.target = ELEMENT_ARRAY_BUFFER
    · rw [sortStep_matched_elt hloc helt] at h
      exact Except.noConfusion h
    · rw [sortStep_matched_nonelt hloc helt] at h
      rw [← Except.ok.inj h]
      exact ⟨fun a ha => ha, fun hh => hh⟩

theorem sortStep_unmatched_nonelt_mem {p : Prog} {acc acc' : SortAcc} {entry : String × Buffer}
    (hloc : p.attributeLocations entry.1 = none)
    (helt : ¬ entry.2.target = ELEMENT_ARRAY_BUFFER)
    (h : sortStep p acc entry = Except.ok acc') :
    entry.1 ∈ acc'.warn := by
  obtain ⟨w, hw, -, hmem, -⟩ := @sortStep_unmatched_nonelt p acc entry hloc helt
  rw [hw] at h
  rw [← Except.ok.inj h]
  exact hmem

/-! ### The scan as a whole: warn bookkeeping and error conditions -/

theorem sortRun_warn_subset (p : Prog) (l : List (String × Buffer)) :
    ∀ acc : SortAcc, acc.warn ⊆ (sortBuffersRun p l acc).1.warn := by
  induction l with
  | nil => intro acc a ha; exact ha
  | cons entry rest ih =>
    intro acc
    rcases sortStep_total p acc entry with ⟨e, he⟩ | ⟨acc', ha⟩
    · rw [sortRun_cons_error he]; exact fun a hx => hx
    · rw [sortRun_cons_ok ha]
      exact fun a hx => ih acc' ((sortStep_ok_warn ha).1 hx)

theorem sortRun_warn_nodup (p : Prog) (l : List (String × Buffer)) :
    ∀ acc : SortAcc, acc.warn.Nodup → (sortBuffersRun p l acc).1.warn.Nodup := by
  induction l with
  | nil => intro acc h; exact h
  | cons entry rest ih =>
    intro acc h
    rcases sortStep_total p acc entry with ⟨e, he⟩ | ⟨acc', ha⟩
    · rw [sortRun_cons_error he]; exact h
    · rw [sortRun_cons_ok ha]
      exact ih acc' ((sortStep_ok_warn ha).2 h)

theorem sortRun_complete_warns (p : Prog) (l : List (String × Buffer)) :
    ∀ acc : SortAcc, (sortBuffersRun p l acc).2 = none →
      ∀ entry ∈ l, p.attributeLocations entry.1 = none →
        ¬ entry.2.target = ELEMENT_ARRAY_BUFFER →
        entry.1 ∈ (sortBuffersRun p l acc).1.warn := by
  induction l with
  | nil => intro acc _ entry he; exact absurd he (List.not_mem_nil _)
  | cons e0 rest ih =>
    intro acc hnone entry hmem hloc helt
    rcases sortStep_total p acc e0 with ⟨e, he⟩ | ⟨acc', ha⟩
    · rw [sortRun_cons_error he] at hnone
      exact Option.noConfusion hnone
    · rw [sortRun_cons_ok ha] at hnone ⊢
      rcases List.mem_cons.mp hmem with rfl | hmem'
      · exact sortRun_warn_subset p rest acc' (sortStep_unmatched_nonelt_mem hloc helt ha)
      · exact ih acc' hnone entry hmem' hloc helt

theorem sortRun_error_of_hasBoth (p : Prog) (l : List (String × Buffer)) :
    ∀ acc : SortAcc,
      (∃ entry ∈ l, (p.attributeLocations entry.1).isSome ∧
        entry.2.target = ELEMENT_ARRAY_BUFFER) →
      (sortBuffersRun p l acc).2 ≠ none := by
  induction l with
  | nil => intro acc h; simp at h
  | cons e0 rest ih =>
    intro acc h
    rcases sortStep_total p acc e0 with ⟨e, he⟩ | ⟨acc', ha⟩
    · rw [sortRun_cons_error he]; simp
    · rw [sortRun_cons_ok ha]
      rcases h with ⟨entry, hmem, hsome, helt⟩
      rcases List.mem_cons.mp hmem with rfl | hmem'
      · exfalso
        rcases Option.isSome_iff_exists.mp hsome with ⟨loc, hloc⟩
        rw [sortStep_matched_elt hloc helt] at ha
        exact Except.noConfusion ha
      · exact ih acc' ⟨entry, hmem', hsome, helt⟩

theorem sortRun_error_of_elements_pending (p : Prog) (l : List (String × Buffer)) :
    ∀ acc : SortAcc, acc.elements ≠ none →
      1 ≤ (l.filter (unmatchedElements p)).length →
      (sortBuffersRun p l acc).2 ≠ none := by
  induction l with
  | nil => intro acc _ hc; simp at hc
  | cons e0 rest ih =>
    intro acc hels hc
    by_cases hm : unmatchedElements p e0 = true
    · have hme : p.attributeLocations e0.1 = none ∧ e0.2.target = ELEMENT_ARRAY_BUFFER := by
        simpa [unmatchedElements] using hm
      rw [sortRun_cons_error (sortStep_unmatched_elt_dup hme.1 hme.2 hels)]
      simp
    · have hc' : 1 ≤ (rest.filter (unmatchedElements p)).length := by
        rwa [List.filter_cons, if_neg hm] at hc
      rcases sortStep_total p acc e0 with ⟨e, he⟩ | ⟨acc', ha⟩
      · rw [sortRun_cons_error he]; simp
      · rw [sortRun_cons_ok ha]
        apply ih acc' ?_ hc'
        rw [sortStep_ok_elements ha, if_neg hm]
        exact hels

theorem sortRun_error_of_two_elements (p : Prog) (l : List (String × Buffer)) :
    ∀ acc : SortAcc, 2 ≤ (l.filter (unmatchedElements p)).length →
      (sortBuffersRun p l acc).2 ≠ none := by
  induction l with
  | nil => intro acc hc; simp at hc
  | cons e0 rest ih =>
    intro acc hc
    rcases sortStep_total p acc e0 with ⟨e, he⟩ | ⟨acc', ha⟩
    · rw [sortRun_cons_error he]; simp
    · rw [sortRun_cons_ok ha]
      by_cases hm : unmatchedElements p e0 = true
      · have hc' : 1 ≤ (rest.filter (unmatchedElements p)).length := by
          rw [List.filter_cons, if_pos hm, List.length_cons] at hc
          omega
        apply sortRun_error_of_elements_pending p rest acc' ?_ hc'
        rw [sortStep_ok_elements ha, if_pos hm]
        simp
      · have hc' : 2 ≤ (rest.filter (unmatchedElements p)).length := by
          rwa [List.filter_cons, if_neg hm] at hc
        exact ih acc' hc'

theorem sortRun_error_sound (p : Prog) (l : List (String × Buffer)) :
    ∀ acc : SortAcc, (sortBuffersRun p l acc).2 ≠ none →
      (∃ entry ∈ l, (p.attributeLocations entry.1).isSome ∧
        entry.2.target = ELEMENT_ARRAY_BUFFER)
      ∨ 2 ≤ (l.filter (unmatchedElements p)).length
      ∨ (acc.elements ≠ none ∧ 1 ≤ (l.filter (unmatchedElements p)).length) := by
  induction l with
  | nil =>
    intro acc h
    rw [sortBuffersRun] at h
    exact absurd rfl h
  | cons e0 rest ih =>
    intro acc h
    rcases sortStep_total p acc e0 with ⟨e, he⟩ | ⟨acc', ha⟩
    · have hcond : e0.2.target = ELEMENT_ARRAY_BUFFER ∧
          ((p.attributeLocations e0.1).isSome ∨ acc.elements ≠ none) := by
        rcases hx : p.attributeLocations e0.1 with _ | loc
        · by_cases helt : e0.2.target = ELEMENT_ARRAY_BUFFER
          · by_cases hels : acc.elements = none
            · rw [sortStep_unmatched_elt_ok hx helt hels] at he
              exact Except.noConfusion he
            · exact ⟨helt, Or.inr hels⟩
          · obtain ⟨w, hw, -, -, -⟩ := @sortStep_unmatched_nonelt p acc e0 hx helt
            rw [hw] at he
            exact Except.noConfusion he
        · by_cases helt : e0.2.target = ELEMENT_ARRAY_BUFFER
          · exact ⟨helt, Or.inl rfl⟩
          · rw [sortStep_matched_nonelt hx helt] at he
            exact Except.noConfusion he
      rcases hcond with ⟨helt, hsome | hels⟩
      · exact Or.inl ⟨e0, List.mem_cons_self e0 rest, hsome, helt⟩
      · by_cases hloc : p.attributeLocations e0.1 = none
        · have hm : unmatchedElements p e0 = true := by
            simp [unmatchedElements, hloc, helt]
          refine Or.inr (Or.inr ⟨hels, ?_⟩)
          rw [List.filter_cons, if_pos hm, List.length_cons]
          omega
        · have hsome : (p.attributeLocations e0.1).isSome = true :=
            Option.ne_none_iff_isSome.mp hloc
          exact Or.inl ⟨e0, List.mem_cons_self e0 rest, hsome, helt⟩
    · rw [sortRun_cons_ok ha] at h
      rcases ih acc' h with hB | hC | ⟨hel, hcnt⟩
      · rcases hB with ⟨entry, hmem, hs, he'⟩
        exact Or.inl ⟨entry, List.mem_cons_of_mem _ hmem, hs, he'⟩
      · refine Or.inr (Or.inl ?_)
        rw [List.filter_cons]
        by_cases hm : unmatchedElements p e0 = true
        · rw [if_pos hm, List.length_cons]; omega
        · rw [if_neg hm]; exact hC
      · rw [sortStep_ok_elements ha] at hel
        by_cases hm : unmatchedElements p e0 = true
        · refine Or.inr (Or.inl ?_)
          rw [List.filter_cons, if_pos hm, List.length_cons]
          omega
        · rw [if_neg hm] at hel
          refine Or.inr (Or.inr ⟨hel, ?_⟩)
          rw [List.filter_cons, if_neg hm]
          exact hcnt

theorem sortBuffersByLocation_error_iff (p : Prog) (warn : List String)
    (buffers : List (String × Buffer)) :
    (sortBuffersByLocation p warn buffers).2 ≠ none ↔ violatesIndexInvariants p buffers := by
  unfold sortBuffersByLocation violatesIndexInvariants
  constructor
  · intro h
    rcases sortRun_error_sound p buffers _ h with hB | hC | ⟨hel, _⟩
    · exact Or.inl hB
    · exact Or.inr hC
    · exact absurd rfl hel
  · rintro (hB | hC)
    · exact sortRun_error_of_hasBoth p buffers _ hB
    · exact sortRun_error_of_two_elements p buffers _ hC

/-! ### `_checkBuffers` warn bookkeeping -/

theorem checkBuffersRun_nodup (attrs : List (String × Nat)) :
    ∀ (filled warn : List String), warn.Nodup → (checkBuffersRun attrs filled warn).Nodup := by
  induction attrs with
  | nil => intro filled warn h; exact h
  | cons a rest ih =>
    intro filled warn h
    rcases a with ⟨name, loc⟩
    show (if name ∉ filled ∧ name ∉ warn then checkBuffersRun rest filled (warn ++ [name])
          else checkBuffersRun rest filled warn).Nodup
    by_cases hc : name ∉ filled ∧ name ∉ warn
    · rw [if_pos hc]
      apply ih
      rw [List.nodup_append_comm]
      exact List.nodup_cons.mpr ⟨hc.2, h⟩
    · rw [if_neg hc]
      exact ih filled warn h

theorem checkBuffersRun_subset (attrs : List (String × Nat)) :
    ∀ (filled warn : List String), warn ⊆ checkBuffersRun attrs filled warn := by
  induction attrs with
  | nil => intro filled warn a ha; exact ha
  | cons a rest ih =>
    intro filled warn
    rcases a with ⟨name, loc⟩
    intro x hx
    show x ∈ (if name ∉ filled ∧ name ∉ warn then checkBuffersRun rest filled (warn ++ [name])
          else checkBuffersRun rest filled warn)
    by_cases hc : name ∉ filled ∧ name ∉ warn
    · rw [if_pos hc]
      exact ih filled (warn ++ [name]) (List.mem_append_left _ hx)
    · rw [if_neg hc]
      exact ih filled warn hx

/-! ### setBuffers: bridges to the scan -/

theorem setBuffers_err_eq (p : Prog) (st : ProgState) (buffers : List (String × Buffer))
    (clear check : Bool) :
    (setBuffers p st buffers clear check).err = (sortBuffersByLocation p st.warn buffers).2 := by
  unfold setBuffers
  cases hr : sortBuffersByLocation p st.warn buffers with
  | mk acc err => cases err <;> rfl

theorem setBuffers_filled_on_error (p : Prog) (st : ProgState)
    (buffers : List (String × Buffer)) (check : Bool) {e : SortError}
    (h : (sortBuffersByLocation p st.warn buffers).2 = some e) :
    (setBuffers p st buffers true check).state.filledLocations = [] := by
  unfold setBuffers
  cases hr : sortBuffersByLocation p st.warn buffers with
  | mk acc err =>
    rw [hr] at h
    cases err with
    | none => exact Option.noConfusion h
    | some e' => rfl

/-! ### Claim theorems: setBuffers error conditions (C4, amended C2) -/

/-- Claim C4: starting from a state whose warned-name set has no
duplicates, `setBuffers` aborts with a hard error exactly when the buffer
map violates the index-buffer invariants (some buffer has both an attribute
location and the element target, or two location-less buffers declare the
element target); the warned-name set stays duplicate-free (each name is
warned at most once); and when there is no violation every unmatched
non-element buffer name ends up warned, never erred. -/
theorem setBuffers_error_iff_violation (p : Prog) (st : ProgState)
    (buffers : List (String × Buffer)) (h : st.warn.Nodup) :
    ((setBuffers p st buffers true true).err ≠ none ↔ violatesIndexInvariants p buffers) ∧
    (setBuffers p st buffers true true).state.warn.Nodup ∧
    (¬ violatesIndexInvariants p buffers →
      ∀ entry ∈ buffers, p.attributeLocations entry.1 = none →
        ¬ entry.2.target = ELEMENT_ARRAY_BUFFER →
        entry.1 ∈ (setBuffers p st buffers true true).state.warn) := by
  refine ⟨?_, ?_, ?_⟩
  · rw [setBuffers_err_eq]
    exact sortBuffersByLocation_error_iff p st.warn buffers
  · have h1 : (sortBuffersByLocation p st.warn buffers).1.warn.Nodup :=
      sortRun_warn_nodup p buffers _ h
    unfold setBuffers
    cases hr : sortBuffersByLocation p st.warn buffers with
    | mk acc err =>
      rw [hr] at h1
      cases err with
      | some e => exact h1
      | none => exact checkBuffersRun_nodup p.attributes _ acc.warn h1
  · intro hnv entry hmem hloc helt
    have herr : (sortBuffersByLocation p st.warn buffers).2 = none := by
      by_contra hne
      exact hnv ((sortBuffersByLocation_error_iff p st.warn buffers).mp hne)
    have hwmem : entry.1 ∈ (sortBuffersByLocation p st.warn buffers).1.warn :=
      sortRun_complete_warns p buffers _ herr entry hmem hloc helt
    unfold setBuffers
    cases hr : sortBuffersByLocation p st.warn buffers with
    | mk acc err =>
      rw [hr] at herr hwmem
      cases err with
      | some e => exact Option.noConfusion herr
      | none => exact checkBuffersRun_subset p.attributes _ acc.warn hwmem

/-- Witness for C4 at a concrete, non-violating buffer map. -/
theorem setBuffers_error_iff_violation_witness :
    ((setBuffers progAB freshProgState c4Buffers true true).err ≠ none ↔
      violatesIndexInvariants progAB c4Buffers) ∧
    (setBuffers progAB freshProgState c4Buffers true true).state.warn.Nodup :=
  ⟨(setBuffers_error_iff_violation progAB freshProgState c4Buffers (by decide)).1,
   (setBuffers_error_iff_violation progAB freshProgState c4Buffers (by decide)).2.1⟩

/-- Claim C2 (amended): whenever two distinct buffers in the map declare
the element-array-buffer target, `setBuffers` with `clear = true` raises a
binding-conflict error and leaves `_filledLocations` equal to the empty
set (the clear runs before the conflict is detected), not the pre-call
value. -/
theorem setBuffers_two_element_buffers_error (p : Prog) (st : ProgState)
    (buffers : List (String × Buffer))
    (h : 2 ≤ (buffers.filter
        (fun entry => decide (entry.2.target = ELEMENT_ARRAY_BUFFER))).length) :
    (setBuffers p st buffers true true).err ≠ none ∧
    (setBuffers p st buffers true true).state.filledLocations = [] := by
  have hviol : violatesIndexInvariants p buffers := by
    by_cases hB : ∃ entry ∈ buffers, (p.attributeLocations entry.1).isSome ∧
        entry.2.target = ELEMENT_ARRAY_BUFFER
    · exact Or.inl hB
    · right
      have hcong : buffers.filter (unmatchedElements p)
          = buffers.filter (fun entry => decide (entry.2.target = ELEMENT_ARRAY_BUFFER)) := by
        apply List.filter_congr
        intro entry hmem
        by_cases helt : entry.2.target = ELEMENT_ARRAY_BUFFER
        · have hloc : p.attributeLocations entry.1 = none := by
            cases hx : p.attributeLocations entry.1 with
            | none => rfl
            | some loc => exact absurd ⟨entry, hmem, by rw [hx]; rfl, helt⟩ hB
          simp [unmatchedElements, hloc, helt]
        · simp [unmatchedElements, helt]
      rw [hcong]
      exact h
  have herr : (sortBuffersByLocation p st.warn buffers).2 ≠ none :=
    (sortBuffersByLocation_error_iff p st.warn buffers).mpr hviol
  rcases Option.ne_none_iff_exists'.mp herr with ⟨e, he⟩
  refine ⟨?_, setBuffers_filled_on_error p st buffers true he⟩
  rw [setBuffers_err_eq, he]
  exact fun hx => Option.noConfusion hx

/-- Witness for amended C2 at the concrete two-element-buffer map. -/
theorem setBuffers_two_element_buffers_error_witness :
    (setBuffers progAB preFilledState twoElementBuffers true true).err ≠ none ∧
    (setBuffers progAB preFilledState twoElementBuffers true true).state.filledLocations = [] :=
  setBuffers_two_element_buffers_error progAB preFilledState twoElementBuffers (by decide)

/-! ### Claim C7: setBuffers({}) then setBuffers(map) equals setBuffers(map) -/

theorem disable_eq_self (g : GLState) (i : Nat) (h : (g.slots i).enabled = false) :
    VertexAttributes.disable g i = g := by
  unfold VertexAttributes.disable
  cases g with
  | mk slots eb =>
    congr 1
    funext j
    by_cases hj : j = i
    · subst hj
      rw [if_pos rfl, ← h]
    · rw [if_neg hj]

theorem processLocations_all_none (B : List (String × Buffer)) :
    ∀ (n idx : Nat) (g : GLState) (filled : List String) (dp : DrawParams),
      (∀ j, (g.slots j).enabled = false) →
      processLocations B (List.replicate n none) idx g filled dp
        = { gls := g, filled := filled, drawParams := dp } := by
  intro n
  induction n with
  | zero => intro idx g filled dp _; rfl
  | succ m ih =>
    intro idx g filled dp h
    calc processLocations B (List.replicate (m + 1) none) idx g filled dp
        = processLocations B (List.replicate m none) (idx + 1)
            (VertexAttributes.disable g idx) filled dp := by
          rw [List.replicate_succ]; rfl
      _ = processLocations B (List.replicate m none) (idx + 1) g filled dp := by
          rw [disable_eq_self g idx (h idx)]
      _ = { gls := g, filled := filled, drawParams := dp } := ih (idx + 1) g filled dp h

theorem setBuffers_empty_on_fresh (p : Prog) :
    (setBuffers p freshProgState [] true true).state.gls = freshGLState ∧
    (setBuffers p freshProgState [] true true).state.filledLocations = [] := by
  have hproc := processLocations_all_none [] p.attributeCount 0 freshGLState []
    { isInstanced := false, isIndexed := false, indexType := none } (fun _ => rfl)
  constructor
  · show (processLocations [] (List.replicate p.attributeCount none) 0 freshGLState []
        { isInstanced := false, isIndexed := false, indexType := none }).gls = freshGLState
    rw [hproc]
  · show (processLocations [] (List.replicate p.attributeCount none) 0 freshGLState []
        { isInstanced := false, isIndexed := false, indexType := none }).filled = []
    rw [hproc]

theorem sortRun_warn_indep (p : Prog) (l : List (String × Buffer)) :
    ∀ (locs : List (Option String)) (els : Option String) (w w' : List String),
      ((sortBuffersRun p l ⟨locs, els, w⟩).1.locations
        = (sortBuffersRun p l ⟨locs, els, w'⟩).1.locations) ∧
      ((sortBuffersRun p l ⟨locs, els, w⟩).1.elements
        = (sortBuffersRun p l ⟨locs, els, w'⟩).1.elements) ∧
      ((sortBuffersRun p l ⟨locs, els, w⟩).2 = (sortBuffersRun p l ⟨locs, els, w'⟩).2) := by
  induction l with
  | nil => intro locs els w w'; exact ⟨rfl, rfl, rfl⟩
  | cons e0 rest ih =>
    intro locs els w w'
    cases hloc : p.attributeLocations e0.1 with
    | none =>
      by_cases helt : e0.2.target = ELEMENT_ARRAY_BUFFER
      · by_cases hels : els = none
        · rw [sortRun_cons_ok (@sortStep_unmatched_elt_ok p ⟨locs, els, w⟩ e0 hloc helt hels),
              sortRun_cons_ok (@sortStep_unmatched_elt_ok p ⟨locs, els, w'⟩ e0 hloc helt hels)]
          exact ih locs (some e0.1) w w'
        · rw [sortRun_cons_error
                (@sortStep_unmatched_elt_dup p ⟨locs, els, w⟩ e0 hloc helt hels),
              sortRun_cons_error
                (@sortStep_unmatched_elt_dup p ⟨locs, els, w'⟩ e0 hloc helt hels)]
          exact ⟨rfl, rfl, rfl⟩
      · obtain ⟨w1, hw1, -, -, -⟩ := @sortStep_unmatched_nonelt p ⟨locs, els, w⟩ e0 hloc helt
        obtain ⟨w2, hw2, -, -, -⟩ := @sortStep_unmatched_nonelt p ⟨locs, els, w'⟩ e0 hloc helt
        rw [sortRun_cons_ok hw1, sortRun_cons_ok hw2]
        exact ih locs els w1 w2
    | some loc =>
      by_cases helt : e0.2.target = ELEMENT_ARRAY_BUFFER
      · rw [sortRun_cons_error (@sortStep_matched_elt p ⟨locs, els, w⟩ e0 loc hloc helt),
            sortRun_cons_error (@sortStep_matched_elt p ⟨locs, els, w'⟩ e0 loc hloc helt)]
        exact ⟨rfl, rfl, rfl⟩
      · rw [sortRun_cons_ok (@sortStep_matched_nonelt p ⟨locs, els, w⟩ e0 loc hloc helt),
            sortRun_cons_ok (@sortStep_matched_nonelt p ⟨locs, els, w'⟩ e0 loc hloc helt)]
        exact ih (locs.set loc (some e0.1)) els w w'

theorem setBuffers_ok_eq (p : Prog) (st : ProgState) (buffers : List (String × Buffer))
    (clear check : Bool) (acc : SortAcc)
    (hrun : sortBuffersByLocation p st.warn buffers = (acc, none)) :
    setBuffers p st buffers clear check
      = setBuffersBody p st.gls (if clear then [] else st.filledLocations)
          buffers acc.locations acc.elements acc.warn check := by
  unfold setBuffers
  rw [hrun]

theorem setBuffers_error_case_eq (p : Prog) (st : ProgState)
    (buffers : List (String × Buffer)) (clear check : Bool) (acc : SortAcc) (e : SortError)
    (hrun : sortBuffersByLocation p st.warn buffers = (acc, some e)) :
    setBuffers p st buffers clear check
      = { state := { filledLocations := if clear then [] else st.filledLocations,
                     warn := acc.warn, gls := st.gls },
          drawParams := { isInstanced := false, isIndexed := false, indexType := none },
          err := some e } := by
  unfold setBuffers
  rw [hrun]

theorem setBuffers_state_indep (p : Prog) (buffers : List (String × Buffer))
    (g : GLState) (f f' w w' : List String) (check : Bool) :
    ((setBuffers p ⟨f, w, g⟩ buffers true check).state.gls
      = (setBuffers p ⟨f', w', g⟩ buffers true check).state.gls) ∧
    ((setBuffers p ⟨f, w, g⟩ buffers true check).state.filledLocations
      = (setBuffers p ⟨f', w', g⟩ buffers true check).state.filledLocations) ∧
    ((setBuffers p ⟨f, w, g⟩ buffers true check).drawParams
      = (setBuffers p ⟨f', w', g⟩ buffers true check).drawParams) ∧
    ((setBuffers p ⟨f, w, g⟩ buffers true check).err
      = (setBuffers p ⟨f', w', g⟩ buffers true check).err) := by
  obtain ⟨hlocs, hels, herr⟩ := sortRun_warn_indep p buffers
    (List.replicate p.attributeCount none) none w w'
  rcases hA : sortBuffersByLocation p (⟨f, w, g⟩ : ProgState).warn buffers with ⟨acc1, err1⟩
  rcases hB : sortBuffersByLocation p (⟨f', w', g⟩ : ProgState).warn buffers with ⟨acc2, err2⟩
  have hA' : sortBuffersRun p buffers
      ⟨List.replicate p.attributeCount none, none, w⟩ = (acc1, err1) := hA
  have hB' : sortBuffersRun p buffers
      ⟨List.replicate p.attributeCount none, none, w'⟩ = (acc2, err2) := hB
  rw [hA', hB'] at hlocs hels herr
  have hlocs' : acc1.locations = acc2.locations := hlocs
  have hels' : acc1.elements = acc2.elements := hels
  have herr' : err1 = err2 := herr
  cases err1 with
  | some e =>
    have hh : err2 = some e := herr'.symm
    subst hh
    rw [setBuffers_error_case_eq p ⟨f, w, g⟩ buffers true check acc1 e hA,
        setBuffers_error_case_eq p ⟨f', w', g⟩ buffers true check acc2 e hB]
    exact ⟨rfl, rfl, rfl, rfl⟩
  | none =>
    have hh : err2 = none := herr'.symm
    subst hh
    rw [setBuffers_ok_eq p ⟨f, w, g⟩ buffers true check acc1 hA,
        setBuffers_ok_eq p ⟨f', w', g⟩ buffers true check acc2 hB,
        hlocs', hels']
    exact ⟨rfl, rfl, rfl, rfl⟩

/-- Claim C7: calling `setBuffers({})` and then `setBuffers(map)` with the
default `clear = true`, starting from a freshly linked program, yields the
same bound GPU state (slot enable flags, slot buffer bindings, divisors,
element-buffer binding), the same `_filledLocations`, the same `drawParams`
and the same error outcome as a single `setBuffers(map)` on a freshly
linked program. -/
theorem setBuffers_empty_then_map_eq_single (p : Prog) (buffers : List (String × Buffer)) :
    ((setBuffers p (setBuffers p freshProgState [] true true).state buffers true true).state.gls
      = (setBuffers p freshProgState buffers true true).state.gls) ∧
    ((setBuffers p (setBuffers p freshProgState [] true true).state buffers
        true true).state.filledLocations
      = (setBuffers p freshProgState buffers true true).state.filledLocations) ∧
    ((setBuffers p (setBuffers p freshProgState [] true true).state buffers true true).drawParams
      = (setBuffers p freshProgState buffers true true).drawParams) ∧
    ((setBuffers p (setBuffers p freshProgState [] true true).state buffers true true).err
      = (setBuffers p freshProgState buffers true true).err) := by
  obtain ⟨hg, hf⟩ := setBuffers_empty_on_fresh p
  have hs1 : (setBuffers p freshProgState [] true true).state
      = (⟨(setBuffers p freshProgState [] true true).state.filledLocations,
          (setBuffers p freshProgState [] true true).state.warn,
          (setBuffers p freshProgState [] true true).state.gls⟩ : ProgState) := rfl
  rw [hs1, hg, hf]
  exact setBuffers_state_indep p buffers freshGLState [] []
    (setBuffers p freshProgState [] true true).state.warn [] true

end LumaGL
